import Mathlib

/-!
Verification of the authentication/authorization core of the Desertados PQRS
backend (FastAPI + SQLAlchemy), as a shallow embedding in Lean 4.

The embedded modules are:
  app/core/security.py       (hashing, JWT issue/verify, password policy)
  app/core/dependencies.py   (RoleChecker, PermissionChecker, PaginationParams)
  app/services/auth_service.py (login, change_password)
  app/repositories/user_repository.py (the store operations those use)

External collaborators are modelled by their documented contracts:
  - passlib CryptContext with schemes=["bcrypt"]: an ideal salted one-way
    hash; verify raises UnknownHashError when the hash string cannot be
    identified as a bcrypt hash (passlib documents this ValueError subclass).
  - python-jose jwt.encode/jwt.decode: an ideal signature scheme; decode
    returns the payload exactly when the token was produced by encode under
    the same key and an accepted algorithm and its exp claim has not passed,
    and raises JWTError otherwise.
Time is passed explicitly as a Unix timestamp (Int); Python dicts of claims
are modelled as functions from keys to optional JSON values.
-/

namespace PQRS

/-- A JSON-like claim value: string, integer (Unix timestamps included), or a
list of values (the permissions claim). -/
inductive JValue where
  | s (v : String)
  | i (v : Int)
  | l (v : List JValue)

/-- A claims dictionary: each key is either absent or maps to a value. -/
def Claims : Type := String → Option JValue

/-- Python `payload.get(k) != t` for a string `t`: equality holds only when the
value is present and is the equal string (None or a non-string compare unequal). -/
def py_eq_str : Option JValue → String → Bool
  | some (.s v), t => v == t
  | _, _ => false

/-- Configuration read from app/core/config.py (file not in the sources).
Modelled from the spec: secret key, signing algorithm, access-token TTL
(default 30 min), refresh-token TTL (default 7 days), max page size. -/
structure Settings where
  SECRET_KEY : String
  ALGORITHM : String
  ACCESS_TOKEN_EXPIRE_MINUTES : Int
  REFRESH_TOKEN_EXPIRE_DAYS : Int
  MAX_PAGE_SIZE : Int

/-- Modelled from the spec: the process-wide settings object, read once at
startup; the concrete secret string is arbitrary. -/
def settings : Settings :=
  { SECRET_KEY := "pqrs-secret-key"
    ALGORITHM := "HS256"
    ACCESS_TOKEN_EXPIRE_MINUTES := 30
    REFRESH_TOKEN_EXPIRE_DAYS := 7
    MAX_PAGE_SIZE := 100 }

/-- A JWT wire token: either a well-formed token signed over a payload with a
key and algorithm, or a string that does not parse as a JWT at all. -/
inductive JoseToken where
  | signed (payload : Claims) (key : String) (alg : String)
  | garbage (raw : String)

/-- Errors raised by python-jose decode (all subclasses of JWTError). -/
inductive JWTError where
  | invalid_signature
  | malformed
  | expired_signature
  | claims_error
deriving DecidableEq, Repr

/-- jose jwt.encode: signs the payload under the key and algorithm. -/
def jwt.encode (payload : Claims) (key : String) (alg : String) : JoseToken :=
  JoseToken.signed payload key alg

/-- jose jwt.decode at time `now`: returns the payload when the token is
well-formed, signed with `key` under an accepted algorithm, and its exp claim
(when present) has not passed; raises a JWTError otherwise. -/
def jwt.decode (token : JoseToken) (key : String) (algorithms : List String)
    (now : Int) : Except JWTError Claims :=
  match token with
  | .garbage _ => .error .malformed
  | .signed payload k a =>
    if k ≠ key then .error .invalid_signature
    else if a ∉ algorithms then .error .invalid_signature
    else
      match payload "exp" with
      | some (.i e) => if e < now then .error .expired_signature else .ok payload
      | some _ => .error .claims_error
      | none => .ok payload

/-- Python dict update `d.update({"exp": expire, "type": ty})`: the two keys
are overwritten, every other key keeps its value from `d`. -/
def dict_update_exp_type (d : Claims) (expire : Int) (ty : String) : Claims :=
  fun k =>
    if k = "exp" then some (.i expire)
    else if k = "type" then some (.s ty)
    else d k

/-- security.create_access_token: copies `data`, sets exp = now + delta
(default ACCESS_TOKEN_EXPIRE_MINUTES) and type = "access", signs with the
configured secret and algorithm. `expires_delta` is in seconds. -/
def create_access_token (data : Claims) (now : Int) (expires_delta : Option Int) :
    JoseToken :=
  let expire : Int := now +
    (match expires_delta with
     | some d => d
     | none => 60 * settings.ACCESS_TOKEN_EXPIRE_MINUTES)
  jwt.encode (dict_update_exp_type data expire "access") settings.SECRET_KEY
    settings.ALGORITHM

/-- security.create_refresh_token: same, with type = "refresh" and the
REFRESH_TOKEN_EXPIRE_DAYS default. -/
def create_refresh_token (data : Claims) (now : Int) (expires_delta : Option Int) :
    JoseToken :=
  let expire : Int := now +
    (match expires_delta with
     | some d => d
     | none => 86400 * settings.REFRESH_TOKEN_EXPIRE_DAYS)
  jwt.encode (dict_update_exp_type data expire "refresh") settings.SECRET_KEY
    settings.ALGORITHM

/-- security.verify_token: decode with the configured secret and algorithm;
None on any JWTError; None when the embedded type claim differs from
`token_type`; the payload otherwise. -/
def verify_token (token : JoseToken) (now : Int) (token_type : String) :
    Option Claims :=
  match jwt.decode token settings.SECRET_KEY [settings.ALGORITHM] now with
  | .error _ => none
  | .ok payload =>
    if py_eq_str (payload "type") token_type then some payload else none

/-- The dictionary returned by security.create_token_pair. -/
structure TokenPair where
  access_token : JoseToken
  refresh_token : JoseToken
  token_type : String

/-- security.create_token_pair: access token over the full claims, refresh
token over the dict holding only the subject from the claims. -/
def create_token_pair (user_data : Claims) (now : Int) : TokenPair :=
  let access_token := create_access_token user_data now none
  let refresh_token :=
    create_refresh_token (fun k => if k = "sub" then user_data "sub" else none)
      now none
  { access_token := access_token
    refresh_token := refresh_token
    token_type := "bearer" }

/-- A stored password-hash string: either a well-formed bcrypt hash (the salt
and the hashed password it commits to), or a string passlib cannot identify
as a hash of any configured scheme. -/
inductive HashStr where
  | bcrypt (salt : Nat) (password : String)
  | malformed (raw : String)
deriving DecidableEq, Repr

/-- Errors raised by passlib out of CryptContext.verify. -/
inductive PasslibError where
  | unknownHash
deriving DecidableEq, Repr

/-- passlib CryptContext(schemes=["bcrypt"]).hash: an ideal salted one-way
hash; the salt is drawn by the caller (the library draws it at random). -/
def CryptContext.hash (password : String) (salt : Nat) : HashStr :=
  HashStr.bcrypt salt password

/-- passlib CryptContext.verify: on a well-formed bcrypt hash, true exactly
when the plaintext matches the hashed password; on a string that cannot be
identified as a configured hash, raises UnknownHashError. -/
def CryptContext.verify (plain : String) (hashed : HashStr) :
    Except PasslibError Bool :=
  match hashed with
  | .bcrypt _ pw => .ok (plain == pw)
  | .malformed _ => .error .unknownHash

/-- security.hash_password: delegates to the passlib context. -/
def hash_password (password : String) (salt : Nat) : HashStr :=
  CryptContext.hash password salt

/-- security.verify_password: returns pwd_context.verify unchanged, with no
exception handling of its own, so a passlib error propagates to the caller. -/
def verify_password (plain_password : String) (hashed_password : HashStr) :
    Except PasslibError Bool :=
  CryptContext.verify plain_password hashed_password

/-- The fixed special-character set of security.validate_password_strength. -/
def special_chars : String := "!@#$%^&*(),.?\":\x7b\x7d|<>"

/-- The five distinct reasons validate_password_strength can report. -/
def msg_length : String := "La contraseña debe tener al menos 8 caracteres"

/-- Reason reported when no uppercase letter is present. -/
def msg_upper : String := "La contraseña debe contener al menos una mayúscula"

/-- Reason reported when no lowercase letter is present. -/
def msg_lower : String := "La contraseña debe contener al menos una minúscula"

/-- Reason reported when no digit is present. -/
def msg_digit : String := "La contraseña debe contener al menos un número"

/-- Reason reported when no special character is present. -/
def msg_special : String := "La contraseña debe contener al menos un carácter especial"

/-- security.validate_password_strength: five checks in order, stopping at the
first failure; character classes are modelled at the ASCII level. -/
def validate_password_strength (password : String) : Bool × Option String :=
  if password.length < 8 then
    (false, some msg_length)
  else if !password.data.any (fun c => c.isUpper) then
    (false, some msg_upper)
  else if !password.data.any (fun c => c.isLower) then
    (false, some msg_lower)
  else if !password.data.any (fun c => c.isDigit) then
    (false, some msg_digit)
  else if !password.data.any (fun c => special_chars.data.contains c) then
    (false, some msg_special)
  else
    (true, none)

/-- fastapi.HTTPException as the service raises it: a status code, a detail
message and response headers. -/
structure HTTPException where
  status_code : Nat
  detail : String
  headers : List (String × String)
deriving DecidableEq, Repr

/-- An error escaping a service call: an HTTPException the service raised, or
a passlib error it let propagate. -/
inductive AppError where
  | http (e : HTTPException)
  | passlib (e : PasslibError)
deriving DecidableEq, Repr

/-- app/models/permission.py (file not in the sources). Modelled from the
spec: a permission is a name used for authorization checks. -/
structure Permission where
  name : String
deriving DecidableEq, Repr

/-- app/models/role.py (file not in the sources). Modelled from the spec: a
role has an identifier, a name, and a set of permissions. -/
structure Role where
  id : Int
  name : String
  permissions : List Permission
deriving DecidableEq, Repr

/-- app/models/user.py (file not in the sources). Modelled from the spec and
the fields auth_service/dependencies read: identifier, username, email, full
name, password hash, active flag, role (with permissions eagerly loaded),
last-login timestamp. -/
structure User where
  id : Int
  username : String
  email : String
  full_name : String
  password_hash : HashStr
  is_active : Bool
  role : Role
  last_login : Option Int
deriving DecidableEq, Repr

/-- dependencies.RoleChecker.__call__ on an already resolved active user:
403 when the user's role name is not among the allowed roles, the user
otherwise. -/
def RoleChecker.call (allowed_roles : List String) (current_user : User) :
    Except HTTPException User :=
  if current_user.role.name ∉ allowed_roles then
    .error
      { status_code := 403
        detail := "Requiere uno de estos roles: " ++
          String.intercalate ", " allowed_roles
        headers := [] }
  else
    .ok current_user

/-- The for-loop of PermissionChecker.__call__: the first required permission
missing from the user's permission names, scanning in the list's order. -/
def first_missing (required : List String) (user_permissions : List String) :
    Option String :=
  match required with
  | [] => none
  | p :: rest =>
    if user_permissions.contains p then first_missing rest user_permissions
    else some p

/-- dependencies.PermissionChecker.__call__ on an already resolved active
user: 403 naming the first required permission the user's role lacks, the
user when none is missing. -/
def PermissionChecker.call (required_permissions : List String)
    (current_user : User) : Except HTTPException User :=
  let user_permissions := current_user.role.permissions.map (fun p => p.name)
  match first_missing required_permissions user_permissions with
  | some permission =>
    .error
      { status_code := 403
        detail := "Permiso requerido: " ++ permission
        headers := [] }
  | none => .ok current_user

/-- The validated pagination parameters dependencies.PaginationParams stores. -/
structure PaginationParams where
  skip : Int
  limit : Int
deriving DecidableEq, Repr

/-- dependencies.PaginationParams.__init__: 400 when skip is negative or limit
is outside 1..max_size, where max_size is MAX_PAGE_SIZE (100 when the
configuration lacks the attribute); stores skip and limit unchanged
otherwise. -/
def PaginationParams.init (max_size : Int) (skip : Int) (limit : Int) :
    Except HTTPException PaginationParams :=
  if skip < 0 then
    .error
      { status_code := 400
        detail := "\x27skip\x27 no puede ser negativo"
        headers := [] }
  else if limit ≤ 0 ∨ limit > max_size then
    .error
      { status_code := 400
        detail := "\x27limit\x27 debe estar entre 1 y " ++ toString max_size
        headers := [] }
  else
    .ok { skip := skip, limit := limit }

/-- UserRepository.get_by_id over an explicit store state. -/
def get_by_id (store : List User) (user_id : Int) : Option User :=
  store.find? (fun u => u.id == user_id)

/-- UserRepository.get_by_username over an explicit store state. -/
def get_by_username (store : List User) (username : String) : Option User :=
  store.find? (fun u => u.username == username)

/-- UserRepository.get_by_email over an explicit store state. -/
def get_by_email (store : List User) (email : String) : Option User :=
  store.find? (fun u => u.email == email)

/-- UserRepository.update_last_login: sets last_login to the current time on
the matching rows; true when a row was updated. -/
def update_last_login (store : List User) (user_id : Int) (now : Int) :
    Bool × List User :=
  (store.any (fun u => u.id == user_id),
   store.map (fun u =>
     if u.id == user_id then { u with last_login := some now } else u))

/-- UserRepository.update_password: sets password_hash on the matching rows;
true when a row was updated. -/
def update_password (store : List User) (user_id : Int) (new_password_hash : HashStr) :
    Bool × List User :=
  (store.any (fun u => u.id == user_id),
   store.map (fun u =>
     if u.id == user_id then { u with password_hash := new_password_hash } else u))

/-- The 401 AuthService.login raises both for an unknown username/email and
for a wrong password. -/
def credentials_error : HTTPException :=
  { status_code := 401
    detail := "Credenciales incorrectas"
    headers := [("WWW-Authenticate", "Bearer")] }

/-- The 403 AuthService.login raises for a deactivated account. -/
def inactive_error : HTTPException :=
  { status_code := 403
    detail := "Usuario inactivo. Contacte al administrador."
    headers := [] }

/-- AuthService.login's user lookup: by username first, by email when that
finds nothing. -/
def find_login_user (store : List User) (username : String) : Option User :=
  match get_by_username store username with
  | some user => some user
  | none => get_by_email store username

/-- The claims dict AuthService.login builds for the token pair. -/
def login_user_data (user : User) : Claims := fun k =>
  if k = "sub" then some (.i user.id)
  else if k = "username" then some (.s user.username)
  else if k = "email" then some (.s user.email)
  else if k = "full_name" then some (.s user.full_name)
  else if k = "role" then some (.s user.role.name)
  else if k = "role_id" then some (.i user.role.id)
  else if k = "permissions" then
    some (.l (user.role.permissions.map (fun p => JValue.s p.name)))
  else none

/-- AuthService.login over an explicit store state: lookup by username or
email (401 on absence), password check (the same 401 on mismatch; a passlib
error on a malformed stored hash propagates), active check (403), then
last-login update and token pair. The returned store is the state after the
call. -/
def AuthService.login (store : List User) (username : String) (password : String)
    (now : Int) : Except AppError TokenPair × List User :=
  match find_login_user store username with
  | none => (.error (.http credentials_error), store)
  | some user =>
    match verify_password password user.password_hash with
    | .error e => (.error (.passlib e), store)
    | .ok ok =>
      if !ok then (.error (.http credentials_error), store)
      else if !user.is_active then (.error (.http inactive_error), store)
      else
        let store2 := (update_last_login store user.id now).2
        (.ok (create_token_pair (login_user_data user) now), store2)

/-- The 404 AuthService.change_password raises for a missing user. -/
def user_not_found_error : HTTPException :=
  { status_code := 404
    detail := "Usuario no encontrado"
    headers := [] }

/-- The 400 AuthService.change_password raises for a wrong current password. -/
def wrong_current_password_error : HTTPException :=
  { status_code := 400
    detail := "Contraseña actual incorrecta"
    headers := [] }

/-- AuthService.change_password over an explicit store state: user lookup
(404), current-password check against the stored hash (400), then new-password
strength validation (400 with the policy reason), then hash-and-update with
commit on success. `salt` stands for the salt the library draws for the new
hash. The returned store is the state after the call. -/
def AuthService.change_password (store : List User) (salt : Nat) (user_id : Int)
    (current_password : String) (new_password : String) :
    Except AppError Bool × List User :=
  match get_by_id store user_id with
  | none => (.error (.http user_not_found_error), store)
  | some user =>
    match verify_password current_password user.password_hash with
    | .error e => (.error (.passlib e), store)
    | .ok ok =>
      if !ok then (.error (.http wrong_current_password_error), store)
      else
        match validate_password_strength new_password with
        | (false, error_message) =>
          (.error (.http
            { status_code := 400
              detail := error_message.getD ""
              headers := [] }), store)
        | (true, _) =>
          let r := update_password store user_id (hash_password new_password salt)
          if r.1 then (.ok true, r.2) else (.ok false, store)

/-! Helper lemmas shared by the claim theorems. -/

lemma bool_eq_true_of_not_not (b : Bool) (h : ¬ (!b) = true) : b = true := by
  cases b <;> simp_all

lemma py_eq_str_iff (v : Option JValue) (t : String) :
    py_eq_str v t = true ↔ v = some (.s t) := by
  cases v with
  | none => simp [py_eq_str]
  | some j => cases j <;> simp [py_eq_str]

lemma verify_token_none_of_decode_error (tok : JoseToken) (now : Int) (ty : String)
    (e : JWTError)
    (h : jwt.decode tok settings.SECRET_KEY [settings.ALGORITHM] now = .error e) :
    verify_token tok now ty = none := by
  simp [verify_token, h]

lemma jwt_decode_signed_ok {payload p' : Claims} {k a key : String}
    {algs : List String} {now : Int}
    (h : jwt.decode (.signed payload k a) key algs now = .ok p') : p' = payload := by
  simp only [jwt.decode] at h
  by_cases h1 : k ≠ key
  · rw [if_pos h1] at h; cases h
  · rw [if_neg h1] at h
    by_cases h2 : a ∉ algs
    · rw [if_pos h2] at h; cases h
    · rw [if_neg h2] at h
      cases hm : payload "exp" with
      | none => rw [hm] at h; cases h; rfl
      | some j =>
        rw [hm] at h
        cases j with
        | i e =>
          dsimp only at h
          by_cases h3 : e < now
          · rw [if_pos h3] at h; cases h
          · rw [if_neg h3] at h; cases h; rfl
        | s v => cases h
        | l v => cases h

lemma create_access_token_shape (data : Claims) (now : Int) (d : Option Int) :
    ∃ ap : Claims, create_access_token data now d
        = JoseToken.signed ap settings.SECRET_KEY settings.ALGORITHM ∧
      ap "type" = some (.s "access") := by
  refine ⟨_, rfl, ?_⟩
  simp [dict_update_exp_type]

lemma create_refresh_token_shape (data : Claims) (now : Int) (d : Option Int) :
    ∃ rp : Claims, create_refresh_token data now d
        = JoseToken.signed rp settings.SECRET_KEY settings.ALGORITHM ∧
      rp "type" = some (.s "refresh") := by
  refine ⟨_, rfl, ?_⟩
  simp [dict_update_exp_type]

/-- C1: verify_token yields the explicit invalid result (none, never an
exception) on a malformed token, on a signature mismatch (wrong key or
algorithm), on an expired exp claim, and on a type-claim mismatch; any
accepted payload carries exactly the expected type claim; and a token minted
by create_access_token fails verification as refresh, and one minted by
create_refresh_token fails verification as access, at every verification
time. -/
theorem C1_verify_token_invalid_results :
    (∀ raw now ty, verify_token (.garbage raw) now ty = none) ∧
    (∀ (payload : Claims) k a now ty,
        k ≠ settings.SECRET_KEY ∨ a ≠ settings.ALGORITHM →
        verify_token (.signed payload k a) now ty = none) ∧
    (∀ (payload : Claims) now ty e, payload "exp" = some (.i e) → e < now →
        verify_token (.signed payload settings.SECRET_KEY settings.ALGORITHM)
          now ty = none) ∧
    (∀ (payload : Claims) now ty, payload "type" ≠ some (.s ty) →
        verify_token (.signed payload settings.SECRET_KEY settings.ALGORITHM)
          now ty = none) ∧
    (∀ tok now ty payload, verify_token tok now ty = some payload →
        payload "type" = some (.s ty)) ∧
    (∀ data now d now2,
        verify_token (create_access_token data now d) now2 "refresh" = none) ∧
    (∀ data now d now2,
        verify_token (create_refresh_token data now d) now2 "access" = none) := by
  have hmismatch : ∀ (payload : Claims) (now : Int) (ty : String),
      payload "type" ≠ some (.s ty) →
      verify_token (.signed payload settings.SECRET_KEY settings.ALGORITHM)
        now ty = none := by
    intro payload now ty hty
    cases hdec : jwt.decode (.signed payload settings.SECRET_KEY settings.ALGORITHM)
        settings.SECRET_KEY [settings.ALGORITHM] now with
    | error e => exact verify_token_none_of_decode_error _ _ _ e hdec
    | ok p' =>
      have hp : p' = payload := jwt_decode_signed_ok hdec
      subst hp
      simp only [verify_token, hdec]
      rw [if_neg]
      intro hc
      exact hty ((py_eq_str_iff _ _).mp hc)
  refine ⟨fun raw now ty => rfl, ?_, ?_, hmismatch, ?_, ?_, ?_⟩
  · intro payload k a now ty h
    rcases h with h | h
    · exact verify_token_none_of_decode_error _ _ _ .invalid_signature
        (by simp [jwt.decode, h])
    · by_cases hk : k = settings.SECRET_KEY
      · exact verify_token_none_of_decode_error _ _ _ .invalid_signature
          (by simp [jwt.decode, hk, h])
      · exact verify_token_none_of_decode_error _ _ _ .invalid_signature
          (by simp [jwt.decode, hk])
  · intro payload now ty e hexp hlt
    exact verify_token_none_of_decode_error _ _ _ .expired_signature
      (by simp [jwt.decode, hexp, hlt])
  · intro tok now ty payload hv
    simp only [verify_token] at hv
    split at hv
    · cases hv
    · split_ifs at hv with hty
      cases hv
      exact (py_eq_str_iff _ _).mp hty
  · intro data now d now2
    obtain ⟨ap, htok, hty⟩ := create_access_token_shape data now d
    rw [htok]
    refine hmismatch ap now2 "refresh" ?_
    rw [hty]
    intro hc
    injection hc with hc1
    injection hc1 with hc2
    exact absurd hc2 (by decide)
  · intro data now d now2
    obtain ⟨rp, htok, hty⟩ := create_refresh_token_shape data now d
    rw [htok]
    refine hmismatch rp now2 "access" ?_
    rw [hty]
    intro hc
    injection hc with hc1
    injection hc1 with hc2
    exact absurd hc2 (by decide)

/-- C2: validate_password_strength accepts exactly the passwords satisfying
all five rules; it reports no reason exactly when it accepts; each rule,
taken in the fixed order (length, uppercase, lowercase, digit, special
character), is the one reported when it is the first to fail; and the five
reasons are pairwise distinct. -/
theorem C2_validate_password_strength_rules :
    (∀ p : String, (validate_password_strength p).1 = true ↔
        (8 ≤ p.length ∧ p.data.any (fun c => c.isUpper) = true ∧
         p.data.any (fun c => c.isLower) = true ∧
         p.data.any (fun c => c.isDigit) = true ∧
         p.data.any (fun c => special_chars.data.contains c) = true)) ∧
    (∀ p : String, (validate_password_strength p).1 = true ↔
        (validate_password_strength p).2 = none) ∧
    (∀ p : String, p.length < 8 →
        validate_password_strength p = (false, some msg_length)) ∧
    (∀ p : String, 8 ≤ p.length → p.data.any (fun c => c.isUpper) = false →
        validate_password_strength p = (false, some msg_upper)) ∧
    (∀ p : String, 8 ≤ p.length → p.data.any (fun c => c.isUpper) = true →
        p.data.any (fun c => c.isLower) = false →
        validate_password_strength p = (false, some msg_lower)) ∧
    (∀ p : String, 8 ≤ p.length → p.data.any (fun c => c.isUpper) = true →
        p.data.any (fun c => c.isLower) = true →
        p.data.any (fun c => c.isDigit) = false →
        validate_password_strength p = (false, some msg_digit)) ∧
    (∀ p : String, 8 ≤ p.length → p.data.any (fun c => c.isUpper) = true →
        p.data.any (fun c => c.isLower) = true →
        p.data.any (fun c => c.isDigit) = true →
        p.data.any (fun c => special_chars.data.contains c) = false →
        validate_password_strength p = (false, some msg_special)) ∧
    List.Pairwise (fun a b => a ≠ b)
      [msg_length, msg_upper, msg_lower, msg_digit, msg_special] := by
  refine ⟨?_, ?_, ?_, ?_, ?_, ?_, ?_, by decide⟩
  · intro p
    simp only [validate_password_strength]
    split_ifs with h1 h2 h3 h4 h5
    · exact iff_of_false (by decide) (fun hc => absurd hc.1 (by omega))
    · refine iff_of_false (by decide) (fun hc => ?_)
      simp only [Bool.not_eq_true'] at h2
      rw [h2] at hc
      exact Bool.false_ne_true hc.2.1
    · refine iff_of_false (by decide) (fun hc => ?_)
      simp only [Bool.not_eq_true'] at h3
      rw [h3] at hc
      exact Bool.false_ne_true hc.2.2.1
    · refine iff_of_false (by decide) (fun hc => ?_)
      simp only [Bool.not_eq_true'] at h4
      rw [h4] at hc
      exact Bool.false_ne_true hc.2.2.2.1
    · refine iff_of_false (by decide) (fun hc => ?_)
      simp only [Bool.not_eq_true'] at h5
      rw [h5] at hc
      exact Bool.false_ne_true hc.2.2.2.2
    · exact iff_of_true (by decide)
        ⟨by omega, bool_eq_true_of_not_not _ h2, bool_eq_true_of_not_not _ h3,
         bool_eq_true_of_not_not _ h4, bool_eq_true_of_not_not _ h5⟩
  · intro p
    simp only [validate_password_strength]
    split_ifs <;> simp
  · intro p h
    simp only [validate_password_strength]
    rw [if_pos h]
  · intro p h hu
    simp only [validate_password_strength]
    rw [if_neg (by omega), if_pos (by simp only [hu, Bool.not_false])]
  · intro p h hu hl
    simp only [validate_password_strength]
    rw [if_neg (by omega),
      if_neg (by simp only [hu, Bool.not_true]; exact Bool.false_ne_true),
      if_pos (by simp only [hl, Bool.not_false])]
  · intro p h hu hl hd
    simp only [validate_password_strength]
    rw [if_neg (by omega),
      if_neg (by simp only [hu, Bool.not_true]; exact Bool.false_ne_true),
      if_neg (by simp only [hl, Bool.not_true]; exact Bool.false_ne_true),
      if_pos (by simp only [hd, Bool.not_false])]
  · intro p h hu hl hd hs
    simp only [validate_password_strength]
    rw [if_neg (by omega),
      if_neg (by simp only [hu, Bool.not_true]; exact Bool.false_ne_true),
      if_neg (by simp only [hl, Bool.not_true]; exact Bool.false_ne_true),
      if_neg (by simp only [hd, Bool.not_true]; exact Bool.false_ne_true),
      if_pos (by simp only [hs, Bool.not_false])]

/-- C3: on a hash string passlib cannot identify, verify_password does not
return false: it lets the UnknownHashError escape to the caller, both at the
concrete failing input and for every malformed hash. -/
theorem C3_verify_password_malformed_raises :
    verify_password "anything" (HashStr.malformed "not-a-bcrypt-hash")
      = .error .unknownHash ∧
    (∀ plain raw,
        verify_password plain (HashStr.malformed raw) = .error .unknownHash) :=
  ⟨rfl, fun _ _ => rfl⟩

/-- C4: create_token_pair returns token_type bearer, an access token signed
over the input claims plus exp and type=access (every other key unchanged),
and a refresh token whose only identity claim is the subject taken from the
input claims (plus exp and type=refresh; every other key absent). -/
theorem C4_create_token_pair_claims :
    ∀ (data : Claims) (now : Int),
      (create_token_pair data now).token_type = "bearer" ∧
      (∃ ap : Claims,
        (create_token_pair data now).access_token
          = JoseToken.signed ap settings.SECRET_KEY settings.ALGORITHM ∧
        (∀ k, k ≠ "exp" → k ≠ "type" → ap k = data k) ∧
        ap "type" = some (.s "access") ∧
        ap "exp" = some (.i (now + 60 * settings.ACCESS_TOKEN_EXPIRE_MINUTES))) ∧
      (∃ rp : Claims,
        (create_token_pair data now).refresh_token
          = JoseToken.signed rp settings.SECRET_KEY settings.ALGORITHM ∧
        rp "sub" = data "sub" ∧
        rp "type" = some (.s "refresh") ∧
        rp "exp" = some (.i (now + 86400 * settings.REFRESH_TOKEN_EXPIRE_DAYS)) ∧
        (∀ k, k ≠ "sub" → k ≠ "exp" → k ≠ "type" → rp k = none)) := by
  intro data now
  refine ⟨rfl, ⟨_, rfl, ?_, ?_, ?_⟩, ⟨_, rfl, ?_, ?_, ?_, ?_⟩⟩
  · intro k h1 h2
    simp [dict_update_exp_type, h1, h2]
  · simp [dict_update_exp_type]
  · simp [dict_update_exp_type]
  · simp [dict_update_exp_type]
  · simp [dict_update_exp_type]
  · simp [dict_update_exp_type]
  · intro k h1 h2 h3
    simp [dict_update_exp_type, h1, h2, h3]

/-- C8: in the ideal model of the salted bcrypt hash, verifying a password
against its own hash succeeds, and verifying it against the hash of any other
password fails. -/
theorem C8_hash_verify_roundtrip :
    (∀ p salt, verify_password p (hash_password p salt) = .ok true) ∧
    (∀ p1 p2 salt, p1 ≠ p2 →
        verify_password p1 (hash_password p2 salt) = .ok false) := by
  constructor
  · intro p salt
    simp [verify_password, hash_password, CryptContext.verify, CryptContext.hash]
  · intro p1 p2 salt h
    simp [verify_password, hash_password, CryptContext.verify, CryptContext.hash, h]


lemma first_missing_eq_none_iff (required perms : List String) :
    first_missing required perms = none ↔ ∀ p ∈ required, p ∈ perms := by
  induction required with
  | nil => simp [first_missing]
  | cons q rest ih =>
    by_cases hq : q ∈ perms
    · have : perms.contains q = true := by simp [hq]
      simp [first_missing, this, ih, hq]
    · have : perms.contains q = false := by simp [hq]
      simp [first_missing, this, hq]

lemma first_missing_first (pre : List String) (p : String) (post perms : List String)
    (hpre : ∀ q ∈ pre, q ∈ perms) (hp : p ∉ perms) :
    first_missing (pre ++ p :: post) perms = some p := by
  induction pre with
  | nil =>
    simp only [List.nil_append, first_missing]
    rw [if_neg]
    simp [hp]
  | cons q rest ih =>
    simp only [List.cons_append, first_missing]
    rw [if_pos]
    · exact ih (fun r hr => hpre r (by simp [hr]))
    · simp [hpre q (by simp)]

/-- C5: PermissionChecker passes, returning the user, exactly when every
required permission name is among the user's role's permission names, and
otherwise denies with a 403 naming the first missing permission in the
required list's order. -/
theorem C5_PermissionChecker_all_required :
    ∀ (required_permissions : List String) (user : User),
      (PermissionChecker.call required_permissions user = .ok user ↔
        ∀ p ∈ required_permissions,
          p ∈ user.role.permissions.map (fun q => q.name)) ∧
      (∀ pre p post,
        required_permissions = pre ++ p :: post →
        (∀ q ∈ pre, q ∈ user.role.permissions.map (fun q => q.name)) →
        p ∉ user.role.permissions.map (fun q => q.name) →
        PermissionChecker.call required_permissions user = .error
          { status_code := 403
            detail := "Permiso requerido: " ++ p
            headers := [] }) := by
  intro required user
  constructor
  · cases hfm : first_missing required
        (user.role.permissions.map (fun q => q.name)) with
    | none =>
      have hok : PermissionChecker.call required user = .ok user := by
        simp only [PermissionChecker.call, hfm]
      rw [hok]
      exact iff_of_true rfl ((first_missing_eq_none_iff _ _).mp hfm)
    | some m =>
      simp only [PermissionChecker.call, hfm]
      refine iff_of_false (fun hc => by cases hc) (fun hall => ?_)
      rw [(first_missing_eq_none_iff _ _).mpr hall] at hfm
      cases hfm
  · intro pre p post hreq hpre hp
    subst hreq
    simp only [PermissionChecker.call, first_missing_first pre p post _ hpre hp]

/-- C6: RoleChecker passes, returning the user, exactly when the user's role
name is among the allowed roles, and otherwise denies with a 403 whose detail
lists the allowed roles. -/
theorem C6_RoleChecker_membership :
    ∀ (allowed_roles : List String) (user : User),
      (RoleChecker.call allowed_roles user = .ok user ↔
        user.role.name ∈ allowed_roles) ∧
      (user.role.name ∉ allowed_roles →
        RoleChecker.call allowed_roles user = .error
          { status_code := 403
            detail := "Requiere uno de estos roles: " ++
              String.intercalate ", " allowed_roles
            headers := [] }) := by
  intro allowed user
  constructor
  · constructor
    · intro h
      by_contra hmem
      simp only [RoleChecker.call, if_pos hmem] at h
      cases h
    · intro hmem
      simp [RoleChecker.call, hmem]
  · intro hmem
    simp [RoleChecker.call, hmem]

/-- C9: constructing PaginationParams fails with a 400 exactly when skip is
negative, limit is non-positive, or limit exceeds the configured maximum page
size; otherwise the object stores skip and limit unchanged. -/
theorem C9_pagination_validation :
    ∀ (max_size skip limit : Int),
      ((∃ e, PaginationParams.init max_size skip limit = .error e ∧
          e.status_code = 400) ↔
        (skip < 0 ∨ limit ≤ 0 ∨ max_size < limit)) ∧
      (0 ≤ skip → 0 < limit → limit ≤ max_size →
        PaginationParams.init max_size skip limit
          = .ok { skip := skip, limit := limit }) := by
  intro m s l
  constructor
  · constructor
    · rintro ⟨e, he, h400⟩
      simp only [PaginationParams.init] at he
      split_ifs at he with c1 c2
      · exact Or.inl c1
      · rcases c2 with h | h
        · exact Or.inr (Or.inl h)
        · exact Or.inr (Or.inr h)
    · intro hc
      simp only [PaginationParams.init]
      split_ifs with c1 c2
      · exact ⟨_, rfl, rfl⟩
      · exact ⟨_, rfl, rfl⟩
      · exfalso
        rcases hc with h | h | h
        · exact c1 h
        · exact c2 (Or.inl h)
        · exact c2 (Or.inr h)
  · intro h1 h2 h3
    simp only [PaginationParams.init]
    rw [if_neg (by omega), if_neg (by omega)]


/-- C7: login reports the same 401 InvalidCredentials failure, identical in
kind, message and headers, for an unknown username/email and for a wrong
password on an existing user; a deactivated account with the correct password
gets the distinct 403 InactiveAccount failure; every failing login returns an
error (hence no tokens) and leaves the store unchanged. -/
theorem C7_login_failure_taxonomy :
    ∀ (store : List User) (username password : String) (now : Int),
      (find_login_user store username = none →
        AuthService.login store username password now
          = (.error (.http credentials_error), store)) ∧
      (∀ user, find_login_user store username = some user →
        verify_password password user.password_hash = .ok false →
        AuthService.login store username password now
          = (.error (.http credentials_error), store)) ∧
      (∀ user, find_login_user store username = some user →
        verify_password password user.password_hash = .ok true →
        user.is_active = false →
        AuthService.login store username password now
          = (.error (.http inactive_error), store)) ∧
      credentials_error ≠ inactive_error ∧
      (∀ e st, AuthService.login store username password now = (.error e, st) →
        st = store) := by
  intro store username password now
  refine ⟨?_, ?_, ?_, by decide, ?_⟩
  · intro h
    simp [AuthService.login, h]
  · intro user hfind hverify
    simp [AuthService.login, hfind, hverify]
  · intro user hfind hverify hact
    simp [AuthService.login, hfind, hverify, hact]
  · intro e st h
    simp only [AuthService.login] at h
    cases hf : find_login_user store username with
    | none =>
      rw [hf] at h
      injection h with h1 h2
      exact h2.symm
    | some user =>
      rw [hf] at h
      dsimp only at h
      cases hv : verify_password password user.password_hash with
      | error pe =>
        rw [hv] at h
        injection h with h1 h2
        exact h2.symm
      | ok b =>
        rw [hv] at h
        dsimp only at h
        cases b with
        | false =>
          rw [if_pos (by decide)] at h
          injection h with h1 h2
          exact h2.symm
        | true =>
          rw [if_neg (by decide)] at h
          cases ha : user.is_active with
          | false =>
            rw [ha, if_pos (by decide)] at h
            injection h with h1 h2
            exact h2.symm
          | true =>
            rw [ha, if_neg (by decide)] at h
            injection h with h1 h2
            cases h1

/-- C10: change_password checks the current password against the stored hash
before validating the new password: a wrong current password yields the
incorrect-current-password error whatever the new password is (weak ones
included), a correct current password with a weak new one yields the policy
error, and every failure leaves the store, hence the stored hash,
unchanged. -/
theorem C10_change_password_checks_current_first :
    ∀ (store : List User) (salt : Nat) (user_id : Int)
      (current_password new_password : String),
      (∀ user, get_by_id store user_id = some user →
        verify_password current_password user.password_hash = .ok false →
        AuthService.change_password store salt user_id current_password new_password
          = (.error (.http wrong_current_password_error), store)) ∧
      (∀ user msg, get_by_id store user_id = some user →
        verify_password current_password user.password_hash = .ok true →
        validate_password_strength new_password = (false, some msg) →
        AuthService.change_password store salt user_id current_password new_password
          = (.error (.http { status_code := 400, detail := msg, headers := [] }),
             store)) ∧
      (∀ e st,
        AuthService.change_password store salt user_id current_password new_password
          = (.error e, st) → st = store) := by
  intro store salt user_id current_password new_password
  refine ⟨?_, ?_, ?_⟩
  · intro user hfind hverify
    simp [AuthService.change_password, hfind, hverify]
  · intro user msg hfind hverify hval
    simp [AuthService.change_password, hfind, hverify, hval]
  · intro e st h
    simp only [AuthService.change_password] at h
    cases hf : get_by_id store user_id with
    | none =>
      rw [hf] at h
      injection h with h1 h2
      exact h2.symm
    | some user =>
      rw [hf] at h
      dsimp only at h
      cases hv : verify_password current_password user.password_hash with
      | error pe =>
        rw [hv] at h
        injection h with h1 h2
        exact h2.symm
      | ok b =>
        rw [hv] at h
        dsimp only at h
        cases b with
        | false =>
          rw [if_pos (by decide)] at h
          injection h with h1 h2
          exact h2.symm
        | true =>
          rw [if_neg (by decide)] at h
          cases hval : validate_password_strength new_password with
          | mk ok msg =>
            rw [hval] at h
            cases ok with
            | false =>
              dsimp only at h
              injection h with h1 h2
              exact h2.symm
            | true =>
              dsimp only at h
              split_ifs at h <;> (injection h with h1 h2; cases h1)

/-- Concrete checks of the password policy on the design document's example
passwords. -/
theorem validate_password_strength_examples :
    validate_password_strength "short" = (false, some msg_length) ∧
    validate_password_strength "NoDigits!" = (false, some msg_digit) ∧
    validate_password_strength "Valid123!" = (true, none) ∧
    validate_password_strength "Weak1!" = (false, some msg_length) := by
  exact ⟨by decide, by decide, by decide, by decide⟩

end PQRS


